import Mathlib

/-!
Verification of the completion adapter layer in
crates/http-api-bindings/src/completion/openai.rs (streaming adapter,
OpenAIEngine) and crates/http-api-bindings/src/completion/azure.rs
(single-shot adapter, AzureEngine).

Each adapter exposes generate(prompt, options), which builds a vendor
request and lazily produces a sequence of text fragments.  The shallow
embedding below turns one call to generate into a pure function from the
build outcome and the transport behaviour to the observable trace of the
call: the fragments yielded in order, the warning diagnostics logged, the
requests handed to the transport, and whether a Rust panic (out of
bounds index or unwrap of None) was reached.
-/

/-- Modelled from the spec: the CompletionOptions value object lives in the
tabby_inference crate, which is not part of the sources here.  The spec
describes it as an immutable pair of a float sampling temperature and an
integer maximum-output-token count.  No arithmetic is ever performed on the
temperature by the adapters, so it is carried exactly as a rational. -/
structure CompletionOptions where
  sampling_temperature : Rat
  max_decoding_tokens : Int
  deriving DecidableEq

/-- One choice inside a streaming completion response unit; text is the
incremental delta used by openai.rs line 59. -/
structure Choice where
  text : String
  deriving DecidableEq

/-- One unit of the incremental completion stream consumed by the for-await
loop in openai.rs lines 56-67. -/
structure CompletionUnit where
  choices : List Choice
  deriving DecidableEq

/-- One item delivered by the transport stream: a normal unit, the
stream-closed error variant (OpenAIError::StreamError, openai.rs line 61),
or any other error (openai.rs lines 62-65). -/
inductive StreamEvent where
  | ok (u : CompletionUnit)
  | streamError (msg : String)
  | otherError (msg : String)
  deriving DecidableEq

/-- The user chat message placed in the azure request (azure.rs
lines 37-42): its content is the prompt. -/
structure ChatMessage where
  content : String
  deriving DecidableEq

/-- The vendor request assembled by OpenAIEngine::generate (openai.rs
lines 31-37). -/
structure CreateCompletionRequest where
  model : String
  temperature : Rat
  max_tokens : Int
  stream : Bool
  prompt : String
  deriving DecidableEq

/-- The vendor request assembled by AzureEngine::generate (azure.rs
lines 35-46).  There is no stream flag: the stream(true) line is commented
out in the source. -/
structure CreateChatCompletionRequest where
  model : String
  messages : List ChatMessage
  temperature : Rat
  max_tokens : Int
  deriving DecidableEq

/-- Message part of one chat choice; content is optional in the vendor
schema and unwrapped by azure.rs line 92. -/
structure ChatChoiceMessage where
  content : Option String
  deriving DecidableEq

/-- One candidate answer of the single-shot chat response. -/
structure ChatChoice where
  message : ChatChoiceMessage
  deriving DecidableEq

/-- The complete single-shot chat response received by azure.rs line 59. -/
structure ChatResponse where
  choices : List ChatChoice
  deriving DecidableEq

/-- The warning diagnostics the adapters emit through warn.  Distinct
constructors correspond to distinct messages in the sources:
buildFailed = openai.rs line 43 / azure.rs line 54,
createFailed = openai.rs line 51 / azure.rs line 62,
streamFailed = openai.rs line 63, emptyChoices = azure.rs line 89. -/
inductive Warning where
  | buildFailed
  | createFailed
  | streamFailed
  | emptyChoices
  deriving DecidableEq

/-- Observable trace of the inner stream-consumption loop: the fragments
yielded in order, the warnings logged, and whether the loop hit the panic
branch of choices[0] on an empty choices list. -/
structure StreamResult where
  fragments : List String
  warnings : List Warning
  panicked : Bool
  deriving DecidableEq

/-- Observable trace of one whole generate call, including every request
handed to the transport collaborator. -/
structure GenResult (ρ : Type) where
  fragments : List String
  warnings : List Warning
  requests : List ρ
  panicked : Bool
  deriving DecidableEq

/-- The Rust cast (options.max_decoding_tokens as u16) at openai.rs line 34
and azure.rs line 44: the low 16 bits of the two-complement representation,
i.e. the value modulo 2 ^ 16. -/
def castU16 (n : Int) : Int :=
  n % 65536

/-- The field values fed to CreateCompletionRequestArgs by
OpenAIEngine::generate, openai.rs lines 31-37. -/
def buildCompletionRequest (model_name prompt : String)
    (options : CompletionOptions) : CreateCompletionRequest :=
  { model := model_name
    temperature := options.sampling_temperature
    max_tokens := castU16 options.max_decoding_tokens
    stream := true
    prompt := prompt }

/-- The field values fed to CreateChatCompletionRequestArgs by
AzureEngine::generate, azure.rs lines 35-46: one user message holding the
prompt, the temperature and the cast token count. -/
def buildChatCompletionRequest (model_name prompt : String)
    (options : CompletionOptions) : CreateChatCompletionRequest :=
  { model := model_name
    messages := [{ content := prompt }]
    temperature := options.sampling_temperature
    max_tokens := castU16 options.max_decoding_tokens }

/-- The for-await loop of OpenAIEngine::generate, openai.rs lines 56-67.
A normal unit yields the text of choices[0], panicking when the choices
list is empty; a StreamError breaks silently; any other error logs one
warning and breaks. -/
def consumeStream : List StreamEvent → StreamResult
  | [] => ⟨[], [], false⟩
  | StreamEvent.ok u :: rest =>
    match u.choices with
    | [] => ⟨[], [], true⟩
    | c :: _ =>
      ⟨c.text :: (consumeStream rest).fragments,
       (consumeStream rest).warnings,
       (consumeStream rest).panicked⟩
  | StreamEvent.streamError _ :: _ => ⟨[], [], false⟩
  | StreamEvent.otherError _ :: _ => ⟨[], [Warning.streamFailed], false⟩

/-- The text of choices[0] of a unit.  The value for an empty choices list
is irrelevant: that case panics in the source and is recorded separately. -/
def firstText (u : CompletionUnit) : String :=
  match u.choices with
  | [] => ""
  | c :: _ => c.text

/-- The streaming adapter of openai.rs.  The configured HTTP client handle
is modelled as the function taking the built request to the transport
outcome: either a create-stream error or the finite list of stream items
the transport will deliver. -/
structure OpenAIEngine where
  client : CreateCompletionRequest → Except String (List StreamEvent)
  model_name : String

/-- OpenAIEngine::generate, openai.rs lines 30-71.  The buildOk argument is
the outcome of the external request builder (the field values it receives
are fixed by buildCompletionRequest): on build failure the call logs one
warning and ends with no fragment and no network call; on create-stream
failure it logs one warning and ends; otherwise the stream is consumed by
consumeStream. -/
def OpenAIEngine.generate (self : OpenAIEngine) (prompt : String)
    (options : CompletionOptions) (buildOk : Bool) :
    GenResult CreateCompletionRequest :=
  if buildOk then
    match self.client (buildCompletionRequest self.model_name prompt options) with
    | Except.error _ =>
      ⟨[], [Warning.createFailed],
       [buildCompletionRequest self.model_name prompt options], false⟩
    | Except.ok events =>
      ⟨(consumeStream events).fragments, (consumeStream events).warnings,
       [buildCompletionRequest self.model_name prompt options],
       (consumeStream events).panicked⟩
  else ⟨[], [Warning.buildFailed], [], false⟩

/-- The single-shot adapter of azure.rs, with its client handle modelled as
the function from the built chat request to the transport outcome. -/
structure AzureEngine where
  client : CreateChatCompletionRequest → Except String ChatResponse
  model_name : String

/-- AzureEngine::generate, azure.rs lines 34-96.  Build failure and
create failure each log one warning and end the sequence empty; a response
with zero choices logs the distinct empty-choice warning and ends empty;
otherwise the call unwraps the optional content of choices[0] (panicking
when it is None, azure.rs line 92) and yields it as the single fragment. -/
def AzureEngine.generate (self : AzureEngine) (prompt : String)
    (options : CompletionOptions) (buildOk : Bool) :
    GenResult CreateChatCompletionRequest :=
  if buildOk then
    match self.client (buildChatCompletionRequest self.model_name prompt options) with
    | Except.error _ =>
      ⟨[], [Warning.createFailed],
       [buildChatCompletionRequest self.model_name prompt options], false⟩
    | Except.ok s =>
      match s.choices with
      | [] =>
        ⟨[], [Warning.emptyChoices],
         [buildChatCompletionRequest self.model_name prompt options], false⟩
      | c :: _ =>
        match c.message.content with
        | none =>
          ⟨[], [],
           [buildChatCompletionRequest self.model_name prompt options], true⟩
        | some t =>
          ⟨[t], [],
           [buildChatCompletionRequest self.model_name prompt options], false⟩
  else ⟨[], [Warning.buildFailed], [], false⟩

/-- Consuming a block of normal units with nonempty choices yields their
first-choice texts in order, in front of whatever the rest of the stream
produces. -/
theorem consumeStream_map_ok_append (units : List CompletionUnit)
    (tail : List StreamEvent) (h : ∀ u ∈ units, u.choices ≠ []) :
    consumeStream (units.map StreamEvent.ok ++ tail) =
      ⟨units.map firstText ++ (consumeStream tail).fragments,
       (consumeStream tail).warnings, (consumeStream tail).panicked⟩ := by
  induction units with
  | nil => rfl
  | cons u us ih =>
    have hu : u.choices ≠ [] := h u (List.mem_cons_self _ _)
    have ih2 := ih (fun v hv => h v (List.mem_cons_of_mem _ hv))
    cases hc : u.choices with
    | nil => exact absurd hc hu
    | cons c cs =>
      simp [consumeStream, hc, ih2, firstText]

/-- A stream consisting only of normal units with nonempty choices yields
exactly their first-choice texts, logs nothing and panics nowhere. -/
theorem consumeStream_map_ok (units : List CompletionUnit)
    (h : ∀ u ∈ units, u.choices ≠ []) :
    consumeStream (units.map StreamEvent.ok) = ⟨units.map firstText, [], false⟩ := by
  have key := consumeStream_map_ok_append units [] h
  simpa [consumeStream] using key

/-- The stream loop never reaches its panic branch when every normal unit
delivered carries at least one choice. -/
theorem consumeStream_no_panic (evs : List StreamEvent)
    (h : ∀ u, StreamEvent.ok u ∈ evs → u.choices ≠ []) :
    (consumeStream evs).panicked = false := by
  induction evs with
  | nil => rfl
  | cons ev rest ih =>
    cases ev with
    | ok u =>
      have hu : u.choices ≠ [] := h u (List.mem_cons_self _ _)
      cases hc : u.choices with
      | nil => exact absurd hc hu
      | cons c cs =>
        have ih2 := ih (fun v hv => h v (List.mem_cons_of_mem _ hv))
        simp [consumeStream, hc, ih2]
    | streamError m => rfl
    | otherError m => rfl

/-- The streaming adapter sends at most the one request built from its
model name, the prompt and the options, and sends it only when the build
succeeded. -/
theorem openai_generate_requests (self : OpenAIEngine) (p : String)
    (o : CompletionOptions) (b : Bool) :
    (self.generate p o b).requests =
      if b then [buildCompletionRequest self.model_name p o] else [] := by
  cases b with
  | false => rfl
  | true =>
    cases hc : self.client (buildCompletionRequest self.model_name p o) with
    | error e => simp [OpenAIEngine.generate, hc]
    | ok evs => simp [OpenAIEngine.generate, hc]

/-- The single-shot adapter sends at most the one request built from its
model name, the prompt and the options, and sends it only when the build
succeeded. -/
theorem azure_generate_requests (self : AzureEngine) (p : String)
    (o : CompletionOptions) (b : Bool) :
    (self.generate p o b).requests =
      if b then [buildChatCompletionRequest self.model_name p o] else [] := by
  cases b with
  | false => rfl
  | true =>
    cases hc : self.client (buildChatCompletionRequest self.model_name p o) with
    | error e => simp [AzureEngine.generate, hc]
    | ok s =>
      cases hs : s.choices with
      | nil => simp [AzureEngine.generate, hc, hs]
      | cons c l =>
        cases hm : c.message.content with
        | none => simp [AzureEngine.generate, hc, hs, hm]
        | some t => simp [AzureEngine.generate, hc, hs, hm]

/-- C3: for every finite sequence of N response units (N >= 0, each with a
first choice) delivered by the streaming transport, the fragments emitted
by generate equal the units first-choice text deltas, in exactly the
delivery order, with no fragment reordered, dropped or duplicated. -/
theorem streaming_fragments_in_delivery_order (self : OpenAIEngine)
    (prompt : String) (o : CompletionOptions) (units : List CompletionUnit)
    (ht : self.client (buildCompletionRequest self.model_name prompt o) =
      Except.ok (units.map StreamEvent.ok))
    (h : ∀ u ∈ units, u.choices ≠ []) :
    (self.generate prompt o true).fragments = units.map firstText := by
  have key := consumeStream_map_ok units h
  simp [OpenAIEngine.generate, ht, key]

/-- Witness for C3: a transport delivering the three units of the spec
example produces exactly those three fragments in order. -/
theorem streaming_fragments_in_delivery_order_witness :
    ((OpenAIEngine.mk
        (fun _ => Except.ok
          [StreamEvent.ok ⟨[⟨"Why"⟩]⟩, StreamEvent.ok ⟨[⟨" did"⟩]⟩,
           StreamEvent.ok ⟨[⟨" the chicken..."⟩]⟩]) "m").generate
      "Tell me a joke" ⟨1, 40⟩ true).fragments =
      ["Why", " did", " the chicken..."] := by
  have h := streaming_fragments_in_delivery_order
    (OpenAIEngine.mk
      (fun _ => Except.ok
        [StreamEvent.ok ⟨[⟨"Why"⟩]⟩, StreamEvent.ok ⟨[⟨" did"⟩]⟩,
         StreamEvent.ok ⟨[⟨" the chicken..."⟩]⟩]) "m")
    "Tell me a joke" ⟨1, 40⟩
    [⟨[⟨"Why"⟩]⟩, ⟨[⟨" did"⟩]⟩, ⟨[⟨" the chicken..."⟩]⟩] rfl (by decide)
  simpa [firstText] using h

/-- C4: for every single-shot transport response whose first choice carries
message text T, generate on the single-shot adapter yields exactly the one
fragment T and the sequence ends without a panic. -/
theorem single_shot_yields_first_choice_text (self : AzureEngine)
    (prompt : String) (o : CompletionOptions) (s : ChatResponse)
    (c : ChatChoice) (l : List ChatChoice) (T : String)
    (ht : self.client (buildChatCompletionRequest self.model_name prompt o) =
      Except.ok s)
    (hc : s.choices = c :: l) (hT : c.message.content = some T) :
    (self.generate prompt o true).fragments = [T] ∧
    (self.generate prompt o true).panicked = false := by
  refine ⟨?_, ?_⟩ <;> simp [AzureEngine.generate, ht, hc, hT]

/-- Witness for C4: a single response whose only choice says hello yields
exactly the fragment hello. -/
theorem single_shot_yields_first_choice_text_witness :
    ((AzureEngine.mk (fun _ => Except.ok ⟨[⟨⟨some "hello"⟩⟩]⟩) "m").generate
        "p" ⟨1, 40⟩ true).fragments = ["hello"] ∧
    ((AzureEngine.mk (fun _ => Except.ok ⟨[⟨⟨some "hello"⟩⟩]⟩) "m").generate
        "p" ⟨1, 40⟩ true).panicked = false :=
  single_shot_yields_first_choice_text
    (AzureEngine.mk (fun _ => Except.ok ⟨[⟨⟨some "hello"⟩⟩]⟩) "m")
    "p" ⟨1, 40⟩ ⟨[⟨⟨some "hello"⟩⟩]⟩ ⟨⟨some "hello"⟩⟩ [] "hello" rfl rfl rfl

/-- C5: whenever building the vendor request payload fails, generate on
either adapter yields no fragment, logs exactly the one build-failure
warning, surfaces no error or panic, and hands no request to the
transport. -/
theorem build_failure_degrades_to_empty (selfO : OpenAIEngine)
    (selfA : AzureEngine) (pO pA : String) (oO oA : CompletionOptions) :
    selfO.generate pO oO false = ⟨[], [Warning.buildFailed], [], false⟩ ∧
    selfA.generate pA oA false = ⟨[], [Warning.buildFailed], [], false⟩ :=
  ⟨rfl, rfl⟩

/-- C6: when the streaming transport delivers K normal units (each with a
first choice) and then the stream-closed error, generate yields exactly K
fragments and logs no warning: stream-closed is normal termination. -/
theorem stream_closed_after_k_units_is_silent (self : OpenAIEngine)
    (prompt : String) (o : CompletionOptions) (units : List CompletionUnit)
    (msg : String)
    (ht : self.client (buildCompletionRequest self.model_name prompt o) =
      Except.ok (units.map StreamEvent.ok ++ [StreamEvent.streamError msg]))
    (h : ∀ u ∈ units, u.choices ≠ []) :
    (self.generate prompt o true).fragments.length = units.length ∧
    (self.generate prompt o true).warnings = [] := by
  have key := consumeStream_map_ok_append units [StreamEvent.streamError msg] h
  refine ⟨?_, ?_⟩ <;> simp [OpenAIEngine.generate, ht, key, consumeStream]

/-- Witness for C6: two good units then stream-closed give two fragments
and no warning. -/
theorem stream_closed_after_k_units_is_silent_witness :
    ((OpenAIEngine.mk
        (fun _ => Except.ok
          [StreamEvent.ok ⟨[⟨"a"⟩]⟩, StreamEvent.ok ⟨[⟨"b"⟩]⟩,
           StreamEvent.streamError "closed"]) "m").generate
      "p" ⟨1, 40⟩ true).fragments.length = 2 ∧
    ((OpenAIEngine.mk
        (fun _ => Except.ok
          [StreamEvent.ok ⟨[⟨"a"⟩]⟩, StreamEvent.ok ⟨[⟨"b"⟩]⟩,
           StreamEvent.streamError "closed"]) "m").generate
      "p" ⟨1, 40⟩ true).warnings = [] := by
  have h := stream_closed_after_k_units_is_silent
    (OpenAIEngine.mk
      (fun _ => Except.ok
        [StreamEvent.ok ⟨[⟨"a"⟩]⟩, StreamEvent.ok ⟨[⟨"b"⟩]⟩,
         StreamEvent.streamError "closed"]) "m")
    "p" ⟨1, 40⟩ [⟨[⟨"a"⟩]⟩, ⟨[⟨"b"⟩]⟩] "closed" rfl (by decide)
  simpa using h

/-- C7: when the streaming transport delivers K good units and then an
error that is not the stream-closed variant, generate yields exactly the K
fragments already produced (no rollback) and logs exactly one warning. -/
theorem other_error_truncates_with_one_warning (self : OpenAIEngine)
    (prompt : String) (o : CompletionOptions) (units : List CompletionUnit)
    (msg : String)
    (ht : self.client (buildCompletionRequest self.model_name prompt o) =
      Except.ok (units.map StreamEvent.ok ++ [StreamEvent.otherError msg]))
    (h : ∀ u ∈ units, u.choices ≠ []) :
    (self.generate prompt o true).fragments = units.map firstText ∧
    (self.generate prompt o true).warnings = [Warning.streamFailed] := by
  have key := consumeStream_map_ok_append units [StreamEvent.otherError msg] h
  refine ⟨?_, ?_⟩ <;> simp [OpenAIEngine.generate, ht, key, consumeStream]

/-- Witness for C7: two good units then an unrelated error give the two
fragments and exactly one warning. -/
theorem other_error_truncates_with_one_warning_witness :
    ((OpenAIEngine.mk
        (fun _ => Except.ok
          [StreamEvent.ok ⟨[⟨"a"⟩]⟩, StreamEvent.ok ⟨[⟨"b"⟩]⟩,
           StreamEvent.otherError "boom"]) "m").generate
      "p" ⟨1, 40⟩ true).fragments = ["a", "b"] ∧
    ((OpenAIEngine.mk
        (fun _ => Except.ok
          [StreamEvent.ok ⟨[⟨"a"⟩]⟩, StreamEvent.ok ⟨[⟨"b"⟩]⟩,
           StreamEvent.otherError "boom"]) "m").generate
      "p" ⟨1, 40⟩ true).warnings = [Warning.streamFailed] := by
  have h := other_error_truncates_with_one_warning
    (OpenAIEngine.mk
      (fun _ => Except.ok
        [StreamEvent.ok ⟨[⟨"a"⟩]⟩, StreamEvent.ok ⟨[⟨"b"⟩]⟩,
         StreamEvent.otherError "boom"]) "m")
    "p" ⟨1, 40⟩ [⟨[⟨"a"⟩]⟩, ⟨[⟨"b"⟩]⟩] "boom" rfl (by decide)
  simpa [firstText] using h

/-- C8: for every single-shot response with an empty choices list, generate
yields no fragment, logs exactly one warning carrying the distinct
empty-vendor-answer message, and surfaces no error or panic. -/
theorem empty_choices_yields_empty_with_one_warning (self : AzureEngine)
    (prompt : String) (o : CompletionOptions) (s : ChatResponse)
    (ht : self.client (buildChatCompletionRequest self.model_name prompt o) =
      Except.ok s)
    (hc : s.choices = []) :
    (self.generate prompt o true).fragments = [] ∧
    (self.generate prompt o true).warnings = [Warning.emptyChoices] ∧
    Warning.emptyChoices ≠ Warning.buildFailed ∧
    Warning.emptyChoices ≠ Warning.createFailed ∧
    (self.generate prompt o true).panicked = false := by
  refine ⟨?_, ?_, by decide, by decide, ?_⟩ <;>
    simp [AzureEngine.generate, ht, hc]

/-- Witness for C8: a response with zero choices gives an empty sequence
and exactly the empty-choice warning. -/
theorem empty_choices_yields_empty_with_one_warning_witness :
    ((AzureEngine.mk (fun _ => Except.ok ⟨[]⟩) "m").generate
        "p" ⟨1, 40⟩ true).fragments = [] ∧
    ((AzureEngine.mk (fun _ => Except.ok ⟨[]⟩) "m").generate
        "p" ⟨1, 40⟩ true).warnings = [Warning.emptyChoices] ∧
    Warning.emptyChoices ≠ Warning.buildFailed ∧
    Warning.emptyChoices ≠ Warning.createFailed ∧
    ((AzureEngine.mk (fun _ => Except.ok ⟨[]⟩) "m").generate
        "p" ⟨1, 40⟩ true).panicked = false :=
  empty_choices_yields_empty_with_one_warning
    (AzureEngine.mk (fun _ => Except.ok ⟨[]⟩) "m") "p" ⟨1, 40⟩ ⟨[]⟩ rfl rfl

/-- C9: a normal streaming unit whose choices list is empty reaches the
panic branch of the choices[0] indexing in the streaming adapter: the unit
is not skipped and the sequence does not end gracefully. -/
theorem streaming_empty_choices_unit_panics :
    (OpenAIEngine.mk (fun _ => Except.ok [StreamEvent.ok ⟨[]⟩]) "m").generate
        "p" ⟨1, 40⟩ true =
      ⟨[], [], [buildCompletionRequest "m" "p" ⟨1, 40⟩], true⟩ := rfl

/-- C10: a single-shot response whose first choice is present but whose
message content is None reaches the panic branch of the unwrap in the
single-shot adapter instead of yielding an empty sequence or a warning. -/
theorem single_shot_absent_content_panics :
    (AzureEngine.mk
        (fun _ => Except.ok ⟨[⟨⟨none⟩⟩, ⟨⟨some "x"⟩⟩]⟩) "m").generate
        "p" ⟨1, 40⟩ true =
      ⟨[], [], [buildChatCompletionRequest "m" "p" ⟨1, 40⟩], true⟩ := rfl

/-- Counterexample to C1 as stated: for the streaming adapter there is a
stream of response units (one good unit, then a normal unit with zero
choices) on which generate raises the out-of-bounds panic after emitting
one fragment, so the caller does not merely observe a truncated fragment
sequence. -/
theorem openai_generate_raises_on_empty_choices :
    ((OpenAIEngine.mk
        (fun _ => Except.ok [StreamEvent.ok ⟨[⟨"Hi"⟩]⟩, StreamEvent.ok ⟨[]⟩])
        "m").generate "p" ⟨1, 40⟩ true).panicked = true ∧
    ((OpenAIEngine.mk
        (fun _ => Except.ok [StreamEvent.ok ⟨[⟨"Hi"⟩]⟩, StreamEvent.ok ⟨[]⟩])
        "m").generate "p" ⟨1, 40⟩ true).fragments = ["Hi"] :=
  ⟨rfl, rfl⟩

/-- C1 (amended): for every prompt, options and transport behaviour in
which every normal streaming unit delivered carries at least one choice
and the first choice of any successful single-shot response carries
message content, generate on either adapter never raises a call-level
error, exception or panic; the caller observes only a possibly empty,
possibly truncated fragment sequence. -/
theorem generate_never_panics_on_wf_transport (selfO : OpenAIEngine)
    (selfA : AzureEngine) (pO pA : String) (oO oA : CompletionOptions)
    (bO bA : Bool)
    (hO : ∀ req evs, selfO.client req = Except.ok evs →
      ∀ u, StreamEvent.ok u ∈ evs → u.choices ≠ [])
    (hA : ∀ req s, selfA.client req = Except.ok s →
      ∀ c l, s.choices = c :: l → c.message.content ≠ none) :
    (selfO.generate pO oO bO).panicked = false ∧
    (selfA.generate pA oA bA).panicked = false := by
  constructor
  · cases bO with
    | false => rfl
    | true =>
      cases hc : selfO.client (buildCompletionRequest selfO.model_name pO oO) with
      | error e => simp [OpenAIEngine.generate, hc]
      | ok evs =>
        have hp := consumeStream_no_panic evs (hO _ evs hc)
        simp [OpenAIEngine.generate, hc, hp]
  · cases bA with
    | false => rfl
    | true =>
      cases hc : selfA.client (buildChatCompletionRequest selfA.model_name pA oA) with
      | error e => simp [AzureEngine.generate, hc]
      | ok s =>
        cases hs : s.choices with
        | nil => simp [AzureEngine.generate, hc, hs]
        | cons c l =>
          have hm := hA _ s hc c l hs
          cases hm2 : c.message.content with
          | none => exact absurd hm2 hm
          | some t => simp [AzureEngine.generate, hc, hs, hm2]

/-- Witness for C1 (amended): a well-formed streaming transport and a
well-formed single-shot transport both complete without any panic. -/
theorem generate_never_panics_on_wf_transport_witness :
    ((OpenAIEngine.mk (fun _ => Except.ok [StreamEvent.ok ⟨[⟨"a"⟩]⟩]) "m").generate
        "p" ⟨1, 40⟩ true).panicked = false ∧
    ((AzureEngine.mk (fun _ => Except.ok ⟨[⟨⟨some "b"⟩⟩]⟩) "m").generate
        "p" ⟨1, 40⟩ true).panicked = false :=
  generate_never_panics_on_wf_transport
    (OpenAIEngine.mk (fun _ => Except.ok [StreamEvent.ok ⟨[⟨"a"⟩]⟩]) "m")
    (AzureEngine.mk (fun _ => Except.ok ⟨[⟨⟨some "b"⟩⟩]⟩) "m")
    "p" "p" ⟨1, 40⟩ ⟨1, 40⟩ true true
    (by
      intro req evs h u hu
      cases h
      simp at hu
      subst hu
      decide)
    (by
      intro req s h c l hc
      cases h
      simp at hc
      obtain ⟨hc1, hc2⟩ := hc
      subst hc1
      decide)

/-- Counterexample to C2 as stated: with max_decoding_tokens = 65536 the
streaming adapter places 0, not 65536, into the vendor request: the cast
to u16 truncates the count. -/
theorem max_tokens_not_forwarded_verbatim :
    ((OpenAIEngine.mk (fun _ => Except.ok []) "m").generate
        "p" ⟨1, 65536⟩ true).requests =
      [{ model := "m", temperature := 1, max_tokens := 0, stream := true,
         prompt := "p" }] ∧
    (0 : Int) ≠ 65536 :=
  ⟨rfl, by decide⟩

/-- C2 (amended): every request an adapter hands to the transport carries
the caller-supplied sampling temperature verbatim, while the
max-decoding-tokens count is placed reduced modulo 2 ^ 16 (the effect of
the as-u16 cast in the source), which equals the caller-supplied count
exactly when that count lies in [0, 65536). -/
theorem request_fields_forwarded (selfO : OpenAIEngine) (selfA : AzureEngine)
    (pO pA : String) (oO oA : CompletionOptions) (bO bA : Bool)
    (reqO : CreateCompletionRequest) (reqA : CreateChatCompletionRequest)
    (hO : reqO ∈ (selfO.generate pO oO bO).requests)
    (hA : reqA ∈ (selfA.generate pA oA bA).requests) :
    (reqO.temperature = oO.sampling_temperature ∧
     reqO.max_tokens = oO.max_decoding_tokens % 65536) ∧
    (reqA.temperature = oA.sampling_temperature ∧
     reqA.max_tokens = oA.max_decoding_tokens % 65536) := by
  rw [openai_generate_requests] at hO
  rw [azure_generate_requests] at hA
  cases bO with
  | false => simp at hO
  | true =>
    cases bA with
    | false => simp at hA
    | true =>
      simp at hO hA
      subst hO
      subst hA
      exact ⟨⟨rfl, rfl⟩, ⟨rfl, rfl⟩⟩

/-- Witness for C2 (amended): with temperature 1 and 40 tokens requested,
both built requests carry temperature 1 and 40 % 65536 tokens. -/
theorem request_fields_forwarded_witness :
    ((buildCompletionRequest "m" "p" ⟨1, 40⟩).temperature =
        (⟨1, 40⟩ : CompletionOptions).sampling_temperature ∧
      (buildCompletionRequest "m" "p" ⟨1, 40⟩).max_tokens =
        (⟨1, 40⟩ : CompletionOptions).max_decoding_tokens % 65536) ∧
    ((buildChatCompletionRequest "m" "p" ⟨1, 40⟩).temperature =
        (⟨1, 40⟩ : CompletionOptions).sampling_temperature ∧
      (buildChatCompletionRequest "m" "p" ⟨1, 40⟩).max_tokens =
        (⟨1, 40⟩ : CompletionOptions).max_decoding_tokens % 65536) :=
  request_fields_forwarded
    (OpenAIEngine.mk (fun _ => Except.ok []) "m")
    (AzureEngine.mk (fun _ => Except.ok ⟨[]⟩) "m")
    "p" "p" ⟨1, 40⟩ ⟨1, 40⟩ true true
    (buildCompletionRequest "m" "p" ⟨1, 40⟩)
    (buildChatCompletionRequest "m" "p" ⟨1, 40⟩)
    (by simp [openai_generate_requests])
    (by simp [azure_generate_requests])
